import Mathlib

/-!
Verification of the Scenario/Matrix Execution Engine
(`packages/cli/src/commands/scenario/index.ts`).

The development shallowly embeds the `scenario run` command action and the
matrix counting helpers.  External collaborators (environment providers, the
agent runtime, the JS `RegExp` engine, the runtime-backed `EvaluationEngine`)
are modelled as an oracle record `World` carrying their observable behaviour;
the control flow of the action itself is translated statement by statement
from the source.

Platform semantics note: in Node.js, `process.exit(code)` terminates the
process immediately and synchronously; it does not unwind the stack, so a
`finally` block enclosing the call site does NOT run.  The embedding encodes
each `process.exit` reached inside the `try` or `catch` block as an immediate
return of the trace accumulated so far, without appending the `finally`
block's events.
-/

/-- Result of executing one step inside the environment
(`ExecutionResult`; the basic evaluators read only `stdout`). -/
structure ExecutionResult where
  stdout : String
  stderr : String := ""
  deriving Repr, DecidableEq

/-- One evaluator attached to a step.  In the source an evaluation is a
tagged object; dispatch in the runtime-independent loop is by string
comparison on `evaluation.type`, with `value` read by `string_contains`
and the field named pattern (here `pat`) read by `regex_match`. -/
structure Evaluation where
  type : String
  value : String := ""
  pat : String := ""
  deriving Repr, DecidableEq

/-- `{ success, message }` produced per evaluator application. -/
structure EvalResult where
  success : Bool
  message : String
  deriving Repr, DecidableEq

/-- One step of the `run` sequence; only its `evaluations` matter to the
evaluation loop. -/
structure Step where
  evaluations : List Evaluation
  deriving Repr, DecidableEq

/-- A declarative mock of one service capability (`setup.mocks` entries). -/
structure Mock where
  service : String
  deriving Repr, DecidableEq

/-- `scenario.environment`. -/
structure ScenarioEnvironment where
  type : String
  deriving Repr, DecidableEq

/-- `scenario.setup` — `mocks` is optional; when present it is an array
(and a JS array, even empty, is truthy in the `if` at line 127). -/
structure ScenarioSetup where
  mocks : Option (List Mock) := none
  deriving Repr, DecidableEq

/-- `scenario.judgment`. -/
structure Judgment where
  strategy : String
  deriving Repr, DecidableEq

/-- A validated scenario value (post-Zod, as the action sees it). -/
structure Scenario where
  environment : ScenarioEnvironment
  setup : ScenarioSetup := {}
  run : List Step := []
  judgment : Option Judgment := none
  deriving Repr, DecidableEq

/-- Observable events of one `scenario run` action execution, in order. -/
inductive Event where
  | applyMocks
  | setupEnv
  | runSteps
  | evaluate
  | revertMocks
  | teardown
  deriving Repr, DecidableEq

/-- Oracle for the external collaborators of the action: whether the
runtime-factory produced a runtime handle, whether the `e2b` service is
present, whether `provider.setup` / `provider.run` raise, the behaviour of
the runtime-backed `EvaluationEngine.runEvaluations`, and the JS `RegExp`
engine (`rePat p = none` models `new RegExp(p)` throwing a `SyntaxError`;
`rePat p = some test` models a compiled regex whose `test` method reports
whether the pattern matches anywhere in its argument). -/
structure World where
  runtimePresent : Bool
  hasE2B : Bool := false
  setupThrows : Bool := false
  runOutcome : Except Unit (List ExecutionResult) := .ok []
  runtimeEval : List Evaluation → ExecutionResult → Except Unit (List EvalResult) :=
    fun _ _ => .ok []
  rePat : String → Option (String → Bool) := fun _ => none

/-- JS `String.prototype.includes`: verbatim substring test, case-sensitive,
no normalization (line 175 `result.stdout.includes(evaluation.value)`). -/
def jsIncludes (s v : String) : Bool :=
  decide (v.data <:+: s.data)

/-- One iteration of the runtime-independent evaluation loop
(lines 174-192): dispatch on `evaluation.type`; `string_contains` is a
substring test, `regex_match` compiles the pattern fresh (raising if it is
invalid — the `.error` case — since `new RegExp` throws on a bad pattern and
nothing catches it locally), and any other type yields a failed result whose
message says a runtime is required. -/
def evalBasicOne (rePat : String → Option (String → Bool)) (ev : Evaluation)
    (result : ExecutionResult) : Except Unit EvalResult :=
  if ev.type = "string_contains" then
    let success := jsIncludes result.stdout ev.value
    .ok ⟨success, "Checked if stdout contains \"" ++ ev.value ++ "\". Result: "
        ++ toString success⟩
  else if ev.type = "regex_match" then
    match rePat ev.pat with
    | none => .error ()
    | some test =>
      let success := test result.stdout
      .ok ⟨success, "Checked if stdout matches regex \"" ++ ev.pat ++ "\". Result: "
          ++ toString success⟩
  else
    .ok ⟨false, "Unknown evaluator type: \x27" ++ ev.type ++ "\x27 (requires runtime)"⟩

/-- The inner `for (const evaluation of step.evaluations)` loop: evaluators
run in declared order, results are pushed in order, and an exception from any
iteration propagates (aborting the rest). -/
def evalBasicStep (rePat : String → Option (String → Bool)) :
    List Evaluation → ExecutionResult → Except Unit (List EvalResult)
  | [], _ => .ok []
  | ev :: rest, result => do
    let r ← evalBasicOne rePat ev result
    let rs ← evalBasicStep rePat rest result
    .ok (r :: rs)

/-- The outer evaluation loop (both modes share this shape, lines 152-160 and
165-197): iterate `i` over the indices of `results`, read
`scenario.run[i]`, and run that step's evaluations when the list is
non-empty.  When `results` is longer than `scenario.run`,
`scenario.run[i]` is `undefined` and reading `.evaluations` raises
(`.error`). -/
def collectEvals (stepEval : List Evaluation → ExecutionResult → Except Unit (List EvalResult)) :
    List Step → List ExecutionResult → Except Unit (List EvalResult)
  | _, [] => .ok []
  | [], _ :: _ => .error ()
  | s :: ss, r :: rs => do
    let here ← if s.evaluations.isEmpty then pure [] else stepEval s.evaluations r
    let rest ← collectEvals stepEval ss rs
    .ok (here ++ rest)

/-- The judgment logic (lines 204-211): `all_pass` → `every`, `any_pass` →
`some`, anything else (including an absent `judgment`) → `false`. -/
def judgeVerdict (judgment : Option Judgment) (results : List EvalResult) : Bool :=
  match judgment with
  | some j =>
    if j.strategy = "all_pass" then results.all (·.success)
    else if j.strategy = "any_pass" then results.any (·.success)
    else false
  | none => false

/-- The body of the `try` block from the point where a provider exists
(after the environment-type dispatch), followed by the `finally` block on the
normal path.  Any raise inside the `try` is caught by the `catch` block,
which calls `process.exit(1)` — terminating the process before the `finally`
block, so the trace ends there (see the platform note in the module
docstring). -/
def runWithProvider (scn : Scenario) (live : Bool) (w : World) : List Event × Nat :=
  let runtime := w.runtimePresent
  -- line 127: `if (runtime && scenario.setup?.mocks && !options.live)`
  let hasMock := runtime && scn.setup.mocks.isSome && !live
  let t0 : List Event := if hasMock then [.applyMocks] else []
  -- line 135: `await provider.setup(scenario)`
  let t1 := t0 ++ [.setupEnv]
  if w.setupThrows then (t1, 1)
  else
    -- line 137: `const results = await provider.run(scenario)`
    let t2 := t1 ++ [.runSteps]
    match w.runOutcome with
    | .error _ => (t2, 1)
    | .ok results =>
      let t3 := t2 ++ [.evaluate]
      let evalRes : Except Unit (List EvalResult) :=
        if runtime then collectEvals w.runtimeEval scn.run results
        else collectEvals (evalBasicStep w.rePat) scn.run results
      match evalRes with
      | .error _ => (t3, 1)
      | .ok allResults =>
        let finalStatus := judgeVerdict scn.judgment allResults
        -- `finally`: revert mocks (if any were applied), tear down,
        -- then `process.exit(finalStatus ? 0 : 1)`.
        let t4 := t3 ++ (if hasMock then [.revertMocks] else []) ++ [.teardown]
        (t4, if finalStatus then 0 else 1)

/-- The `scenario run` action on a validated scenario (lines 97-248).
Environment-type dispatch: `e2b` and `local` both construct a provider and
continue; any other type hits `process.exit(1)` at line 123 before a
provider, mocks, setup, run or evaluation exist — and, `process.exit` being
an immediate termination, the `finally` block does not run either, so the
trace is empty and the exit code is 1. -/
def scenarioRunAction (scn : Scenario) (live : Bool) (w : World) : List Event × Nat :=
  if scn.environment.type = "e2b" then
    runWithProvider scn live w
  else if scn.environment.type = "local" then
    runWithProvider scn live w
  else
    ([], 1)

/-- A literal value on a matrix axis (string, number or boolean). -/
inductive MatrixValue where
  | str (s : String)
  | num (n : Int)
  | boolean (b : Bool)
  deriving Repr, DecidableEq

/-- Modelled from the spec: one matrix axis, `{parameter, values}`, as in
§3 of the specification.  The defining module
(`packages/cli/src/commands/scenario/src/matrix-schema.ts`) is not among the
provided sources; only its call sites in `index.ts` are. -/
structure MatrixAxis where
  parameter : String
  values : List MatrixValue
  deriving Repr, DecidableEq

/-- Modelled from the spec: a validated matrix configuration with its
ordered axes and `runs_per_combination`, per §3 of the specification
(`matrix-schema.ts` is not among the provided sources). -/
structure MatrixConfig where
  matrix : List MatrixAxis
  runs_per_combination : Nat
  deriving Repr, DecidableEq

/-- Modelled from the spec: `calculateTotalCombinations` of
`matrix-schema.ts` (not among the provided sources) — the number of points
of the Cartesian product of the axes, i.e. the product of the axes' value
counts, 1 when there are zero axes. -/
def calculateTotalCombinations (config : MatrixConfig) : Nat :=
  config.matrix.foldl (fun acc axis => acc * axis.values.length) 1

/-- Modelled from the spec: `calculateTotalRuns` of `matrix-schema.ts` (not
among the provided sources) — every combination is run
`runs_per_combination` times. -/
def calculateTotalRuns (config : MatrixConfig) : Nat :=
  calculateTotalCombinations config * config.runs_per_combination

/-! ## Helper lemmas -/

theorem jsIncludes_data_iff (s v : String) :
    jsIncludes s v = true ↔ v.data <:+: s.data := by
  simp [jsIncludes]

theorem string_append_data (a b : String) : (a ++ b).data = a.data ++ b.data :=
  rfl

theorem jsIncludes_iff (s v : String) :
    jsIncludes s v = true ↔ ∃ p q : String, s = p ++ v ++ q := by
  rw [jsIncludes_data_iff]
  constructor
  · rintro ⟨l, r, h⟩
    refine ⟨⟨l⟩, ⟨r⟩, ?_⟩
    apply String.ext
    simpa [string_append_data] using h.symm
  · rintro ⟨p, q, rfl⟩
    exact ⟨p.data, q.data, by simp [string_append_data]⟩

/-! ## Claim theorems -/

/-- C4: when `judgment.strategy` is `all_pass`, the final verdict is true iff
every accumulated `EvaluationResult` has `success = true`; in particular an
empty sequence (e.g. an empty `run`) yields verdict true, and a scenario with
an empty `run` and strategy `all_pass` exits with code 0. -/
theorem all_pass_verdict (rs : List EvalResult) :
    (judgeVerdict (some ⟨"all_pass"⟩) rs = true ↔ ∀ r ∈ rs, r.success = true) ∧
    judgeVerdict (some ⟨"all_pass"⟩) ([] : List EvalResult) = true ∧
    (scenarioRunAction
        { environment := ⟨"local"⟩, judgment := some ⟨"all_pass"⟩ } false
        { runtimePresent := false }).2 = 0 := by
  refine ⟨?_, rfl, rfl⟩
  simp [judgeVerdict, List.all_eq_true]

/-- C5: when `judgment.strategy` is `any_pass`, the final verdict is true iff
at least one accumulated `EvaluationResult` has `success = true`; an empty
sequence yields verdict false, and a scenario with an empty `run` and
strategy `any_pass` exits with code 1. -/
theorem any_pass_verdict (rs : List EvalResult) :
    (judgeVerdict (some ⟨"any_pass"⟩) rs = true ↔ ∃ r ∈ rs, r.success = true) ∧
    judgeVerdict (some ⟨"any_pass"⟩) ([] : List EvalResult) = false ∧
    (scenarioRunAction
        { environment := ⟨"local"⟩, judgment := some ⟨"any_pass"⟩ } false
        { runtimePresent := false }).2 = 1 := by
  refine ⟨?_, rfl, rfl⟩
  simp [judgeVerdict, List.any_eq_true]

/-- C6: any strategy other than `all_pass` and `any_pass` (and an absent
judgment) yields verdict false, whatever the results — fail-closed. -/
theorem unknown_strategy_fails_closed (s : String) (rs : List EvalResult)
    (h1 : s ≠ "all_pass") (h2 : s ≠ "any_pass") :
    judgeVerdict (some ⟨s⟩) rs = false ∧ judgeVerdict none rs = false := by
  simp [judgeVerdict, h1, h2]

/-- Witness for C6 at the concrete strategy `majority` and an all-successful
result list. -/
theorem unknown_strategy_fails_closed_witness :
    ("majority" ≠ "all_pass" ∧ "majority" ≠ "any_pass") ∧
    (judgeVerdict (some ⟨"majority"⟩) [⟨true, "ok"⟩] = false ∧
      judgeVerdict none [⟨true, "ok"⟩] = false) :=
  ⟨⟨by decide, by decide⟩,
    unknown_strategy_fails_closed "majority" [⟨true, "ok"⟩] (by decide) (by decide)⟩

/-- C7: a `string_contains` evaluator succeeds iff the captured output
contains the configured literal verbatim — i.e. the output splits as
`pre ++ value ++ post` — with no case folding or normalization, and its
message records the checked value and outcome. -/
theorem string_contains_verbatim (rePat : String → Option (String → Bool))
    (v p : String) (res : ExecutionResult) :
    evalBasicOne rePat ⟨"string_contains", v, p⟩ res =
      .ok ⟨jsIncludes res.stdout v,
        "Checked if stdout contains \"" ++ v ++ "\". Result: "
          ++ toString (jsIncludes res.stdout v)⟩ ∧
    (jsIncludes res.stdout v = true ↔
      ∃ pre post : String, res.stdout = pre ++ v ++ post) :=
  ⟨rfl, jsIncludes_iff _ _⟩

/-- C8: in runtime-independent mode, an evaluator whose type is neither
`string_contains` nor `regex_match` yields a failed result whose message
says a runtime is required, and the evaluation loop continues past it
rather than raising. -/
theorem unknown_evaluator_requires_runtime (rePat : String → Option (String → Bool))
    (ev : Evaluation) (res : ExecutionResult) (rest : List Evaluation)
    (h1 : ev.type ≠ "string_contains") (h2 : ev.type ≠ "regex_match") :
    evalBasicOne rePat ev res =
      .ok ⟨false, "Unknown evaluator type: \x27" ++ ev.type ++ "\x27 (requires runtime)"⟩ ∧
    evalBasicStep rePat (ev :: rest) res =
      (evalBasicStep rePat rest res).map
        (fun rs =>
          ⟨false, "Unknown evaluator type: \x27" ++ ev.type ++ "\x27 (requires runtime)"⟩ :: rs) := by
  have hone : evalBasicOne rePat ev res =
      .ok ⟨false, "Unknown evaluator type: \x27" ++ ev.type ++ "\x27 (requires runtime)"⟩ := by
    simp [evalBasicOne, h1, h2]
  refine ⟨hone, ?_⟩
  cases hrest : evalBasicStep rePat rest res <;>
    simp [evalBasicStep, hone, hrest, Except.map, Bind.bind, Except.bind]

/-- Witness for C8 at the runtime-dependent evaluator type `llm_judge`. -/
theorem unknown_evaluator_requires_runtime_witness :
    ("llm_judge" ≠ "string_contains" ∧ "llm_judge" ≠ "regex_match") ∧
    (evalBasicOne (fun _ => none) ⟨"llm_judge", "", ""⟩ ⟨"out", ""⟩ =
        .ok ⟨false, "Unknown evaluator type: \x27llm_judge\x27 (requires runtime)"⟩ ∧
      evalBasicStep (fun _ => none) [⟨"llm_judge", "", ""⟩] ⟨"out", ""⟩ =
        (evalBasicStep (fun _ => none) ([] : List Evaluation) ⟨"out", ""⟩).map
          (fun rs =>
            ⟨false, "Unknown evaluator type: \x27llm_judge\x27 (requires runtime)"⟩ :: rs)) :=
  ⟨⟨by decide, by decide⟩,
    unknown_evaluator_requires_runtime (fun _ => none) ⟨"llm_judge", "", ""⟩ ⟨"out", ""⟩
      [] (by decide) (by decide)⟩

/-- C9: `totalCombinations` is the product over all axes of the axis's value
count (1 for zero axes), and `totalRuns` is that product times
`runs_per_combination`. -/
theorem matrix_counts (config : MatrixConfig) :
    calculateTotalCombinations config =
      (config.matrix.map (fun a => a.values.length)).prod ∧
    calculateTotalRuns config =
      (config.matrix.map (fun a => a.values.length)).prod * config.runs_per_combination := by
  have h : calculateTotalCombinations config =
      (config.matrix.map (fun a => a.values.length)).prod := by
    simp [calculateTotalCombinations, List.prod_eq_foldl, List.foldl_map]
  exact ⟨h, by rw [calculateTotalRuns, h]⟩

/-- C3: for an `environment.type` that is neither `local` nor `e2b`, the run
action produces an empty trace (no mock application, no provider setup, no
step execution, no evaluation, no teardown) and exits with code 1. -/
theorem unsupported_environment_aborts (scn : Scenario) (live : Bool) (w : World)
    (h1 : scn.environment.type ≠ "local") (h2 : scn.environment.type ≠ "e2b") :
    scenarioRunAction scn live w = ([], 1) := by
  simp [scenarioRunAction, h1, h2]

/-- Witness for C3 at the concrete environment type `unknown`. -/
theorem unsupported_environment_aborts_witness :
    ("unknown" ≠ "local" ∧ "unknown" ≠ "e2b") ∧
    scenarioRunAction { environment := ⟨"unknown"⟩ } false { runtimePresent := true }
      = ([], 1) :=
  ⟨⟨by decide, by decide⟩,
    unsupported_environment_aborts { environment := ⟨"unknown"⟩ } false
      { runtimePresent := true } (by decide) (by decide)⟩

theorem applyMocks_not_mem_runWithProvider (scn : Scenario) (live : Bool) (w : World)
    (h : (w.runtimePresent && scn.setup.mocks.isSome && !live) = false) :
    Event.applyMocks ∉ (runWithProvider scn live w).1 := by
  simp only [runWithProvider, h]
  split
  · simp
  · cases w.runOutcome with
    | error e => simp
    | ok results =>
      simp only
      split
      · simp
      · simp

/-- C10: the mock engine is never engaged — `applyMocks` appears in no
trace — when the `--live` flag is set, or no `setup.mocks` are declared, or
no runtime handle exists. -/
theorem live_mode_never_applies_mocks (scn : Scenario) (live : Bool) (w : World)
    (h : live = true ∨ scn.setup.mocks = none ∨ w.runtimePresent = false) :
    Event.applyMocks ∉ (scenarioRunAction scn live w).1 := by
  have hfalse : (w.runtimePresent && scn.setup.mocks.isSome && !live) = false := by
    rcases h with h | h | h <;> simp [h]
  unfold scenarioRunAction
  split
  · exact applyMocks_not_mem_runWithProvider scn live w hfalse
  · split
    · exact applyMocks_not_mem_runWithProvider scn live w hfalse
    · simp

/-- Witness for C10: live mode with declared mocks and a runtime present. -/
theorem live_mode_never_applies_mocks_witness :
    (True ∨ (some [(⟨"llm"⟩ : Mock)] : Option (List Mock)) = none ∨ False) ∧
    Event.applyMocks ∉
      (scenarioRunAction
        { environment := ⟨"local"⟩, setup := { mocks := some [⟨"llm"⟩] },
          judgment := some ⟨"all_pass"⟩ }
        true { runtimePresent := true }).1 :=
  ⟨Or.inl trivial,
    live_mode_never_applies_mocks
      { environment := ⟨"local"⟩, setup := { mocks := some [⟨"llm"⟩] },
        judgment := some ⟨"all_pass"⟩ }
      true { runtimePresent := true } (Or.inl rfl)⟩

/-- A scenario that declares mocks, together with a world in which a runtime
exists and `provider.setup` raises — the C1 failing input. -/
def mocksThenSetupRaises : List Event × Nat :=
  scenarioRunAction
    { environment := ⟨"local"⟩, setup := { mocks := some [⟨"llm"⟩] },
      run := [⟨[⟨"string_contains", "OK", ""⟩]⟩], judgment := some ⟨"all_pass"⟩ }
    false
    { runtimePresent := true, setupThrows := true }

/-- C1 (code bug): evaluating the run action at a scenario with applied
mocks whose `provider.setup` raises: the `catch` block's `process.exit(1)`
terminates the process before the `finally` block, so the trace records
`applyMocks` and the `setup` attempt but neither `revertMocks` nor
`teardown`, contradicting the guaranteed-reversion contract. -/
theorem revertMocks_skipped_when_setup_raises :
    mocksThenSetupRaises = ([Event.applyMocks, Event.setupEnv], 1) ∧
    Event.applyMocks ∈ mocksThenSetupRaises.1 ∧
    Event.revertMocks ∉ mocksThenSetupRaises.1 ∧
    Event.teardown ∉ mocksThenSetupRaises.1 := by
  refine ⟨rfl, ?_, ?_, ?_⟩ <;> decide

/-- A stand-in for the external JS `RegExp` engine on the patterns used in
this development: `new RegExp("(")` throws a `SyntaxError` (an unmatched
opening group is invalid), modelled as `none`; the remaining patterns used
here are literal strings, which a JS regex matches anywhere in the text,
modelled as a substring test. -/
def toyRegexEngine : String → Option (String → Bool) :=
  fun p => if p = "(" then none else some (fun s => jsIncludes s p)

/-- C2 counterexample: with the invalid pattern `(` followed by a second
evaluator, the runtime-independent loop raises — no failed
`EvaluationResult` is recorded and the remaining evaluation never runs — and
at the action level the exception reaches the outer `catch`, which exits
with code 1 before any judgment. -/
theorem invalid_regex_aborts_counterexample :
    evalBasicStep toyRegexEngine
      [⟨"regex_match", "", "("⟩, ⟨"string_contains", "x", ""⟩] ⟨"x", ""⟩ = .error () ∧
    scenarioRunAction
      { environment := ⟨"local"⟩,
        run := [⟨[⟨"regex_match", "", "("⟩, ⟨"string_contains", "x", ""⟩]⟩],
        judgment := some ⟨"all_pass"⟩ }
      false
      { runtimePresent := false, runOutcome := .ok [⟨"x", ""⟩], rePat := toyRegexEngine }
      = ([Event.setupEnv, Event.runSteps, Event.evaluate], 1) := by
  exact ⟨rfl, rfl⟩

/-- C2 (amended): in runtime-independent evaluation, a `regex_match`
evaluator whose pattern fails to compile raises, aborting the remaining
evaluations of the step (the exception then reaches the outer catch, which
exits with code 1); for a pattern that compiles, success holds iff the
freshly compiled pattern matches the captured output, and evaluation
continues with the remaining evaluators. -/
theorem regex_match_semantics (rePat : String → Option (String → Bool))
    (p : String) (rest : List Evaluation) (res : ExecutionResult) :
    evalBasicStep rePat (⟨"regex_match", "", p⟩ :: rest) res =
      match rePat p with
      | none => .error ()
      | some test =>
        (evalBasicStep rePat rest res).map
          (fun rs =>
            ⟨test res.stdout, "Checked if stdout matches regex \"" ++ p ++ "\". Result: "
              ++ toString (test res.stdout)⟩ :: rs) := by
  cases hp : rePat p with
  | none => simp [evalBasicStep, evalBasicOne, hp, Bind.bind, Except.bind]
  | some test =>
    cases hrest : evalBasicStep rePat rest res <;>
      simp [evalBasicStep, evalBasicOne, hp, hrest, Except.map, Bind.bind, Except.bind]
